import Mathlib

/-!
Verification of the channel-forwarding engine and process lifecycle of
ptwrap (src/ptwrap.c), a tool that runs a command in a pseudo-terminal.

The C program is shallowly embedded: each C function becomes a Lean
definition over explicit state, and the operating-system results that the
program consumes (read/write return values, select readiness, signal
interruptions, the child wait outcome) are supplied by an explicit
environment, so every definition is executable.
-/

namespace Ptwrap

/-- Platform constant BUFSIZ (stdio buffer size); 8192 on glibc.  The size
of each channel buffer in src/ptwrap.c. -/
def BUFSIZ : Nat := 8192

/-- C constant EXIT_FAILURE. -/
def EXIT_FAILURE : Nat := 1

/-- The state of a forwarding channel, from enum state_T in src/ptwrap.c
line 139: INACTIVE, READING, WRITING. -/
inductive state_T where
  | INACTIVE
  | READING
  | WRITING
deriving DecidableEq, Repr

export state_T (INACTIVE READING WRITING)

/-- struct channel_T from src/ptwrap.c lines 140-145: source and
destination descriptors, state, a fixed-size byte buffer, the read offset
(buffer_position) and the valid length (buffer_length). -/
structure channel_T where
  from_fd : Nat
  to_fd : Nat
  state : state_T
  buffer : List Nat
  buffer_position : Nat
  buffer_length : Nat
deriving DecidableEq, Repr

/-- The operating-system results consumed by one process_buffer step: the
return value of read(2) together with the bytes it deposited, and the
return value of write(2).  ssize_t results are modelled as Int. -/
structure IOEnv where
  readRes : Int
  readData : List Nat
  writeRes : Int
deriving DecidableEq, Repr

/-- Overwriting a prefix of buffer b with freshly read data d, as read(2)
does when it returns d.length bytes: the buffer capacity is left intact. -/
def overwrite (b d : List Nat) : List Nat :=
  d.take b.length ++ b.drop d.length

/-- set_fd_set from src/ptwrap.c lines 147-154: registers the channel's
readiness interest in the select sets.  INACTIVE registers nothing;
READING adds the source descriptor to the read set; WRITING adds the
destination descriptor to the write set. -/
def set_fd_set (channel : channel_T) (read_fds write_fds : Finset Nat) :
    Finset Nat × Finset Nat :=
  match channel.state with
  | INACTIVE => (read_fds, write_fds)
  | READING => (insert channel.from_fd read_fds, write_fds)
  | WRITING => (read_fds, insert channel.to_fd write_fds)

/-- process_buffer from src/ptwrap.c lines 156-188.  One step of the
per-channel state machine, driven by the select readiness sets and the
environment's read/write results.  In READING with the source ready, the
read offset is reset to 0 and the read result decides the next state:
nonpositive (EOF or error) goes to INACTIVE, positive goes to WRITING with
buffer_length set to the bytes read.  In WRITING with the destination
ready, a negative write result is ignored (break, channel untouched);
otherwise the offset advances and the channel returns to READING exactly
when the buffer is drained. -/
def process_buffer (env : IOEnv) (channel : channel_T)
    (read_fds write_fds : Finset Nat) : channel_T :=
  match channel.state with
  | INACTIVE => channel
  | READING =>
    if channel.from_fd ∈ read_fds then
      let channel := { channel with buffer_position := 0 }
      let size := env.readRes
      if size ≤ 0 then
        { channel with state := INACTIVE }
      else
        { channel with
            state := WRITING
            buffer := overwrite channel.buffer env.readData
            buffer_length := size.toNat }
    else
      channel
  | WRITING =>
    if channel.to_fd ∈ write_fds then
      let size := env.writeRes
      if size < 0 then
        channel
      else
        let channel :=
          { channel with buffer_position := channel.buffer_position + size.toNat }
        if channel.buffer_position = channel.buffer_length then
          { channel with state := READING }
        else
          channel
    else
      channel

/-- The parent-side state carried across iterations of forward_all_io
(src/ptwrap.c lines 190-228): the two channels, the volatile flag
should_set_terminal_size (line 54), and a count of the window-geometry
synchronisations performed by set_terminal_size inside the loop. -/
structure LoopState where
  incoming : channel_T
  outgoing : channel_T
  should_set_terminal_size : Bool
  syncCount : Nat
deriving DecidableEq, Repr

/-- The SIGWINCH handler receive_sigwinch from src/ptwrap.c lines 57-59:
its only action is setting should_set_terminal_size to true. -/
def receive_sigwinch (s : LoopState) : LoopState :=
  { s with should_set_terminal_size := true }

/-- set_terminal_size from src/ptwrap.c lines 83-90, restricted to its
loop-visible effect: it clears should_set_terminal_size and re-applies the
local window geometry to the pty master (counted in syncCount; the ioctl
pair is best-effort and carries no data the loop observes). -/
def set_terminal_size (s : LoopState) : LoopState :=
  { s with should_set_terminal_size := false, syncCount := s.syncCount + 1 }

/-- One outcome of the pselect call in forward_all_io: interrupted by a
signal with errno EINTR (winch records whether the SIGWINCH handler ran,
which is the only signal unblocked during the wait able to run a handler),
a failure with errno other than EINTR (fatal), or a set of descriptors
reported ready. -/
inductive Event where
  | interrupted (winch : Bool)
  | selectFail
  | ready (rsel wsel : Finset Nat) (envIn envOut : IOEnv)

/-- The select sets built at the top of each forward_all_io iteration
(src/ptwrap.c lines 209-213): FD_ZERO both sets, then set_fd_set on the
incoming channel, then on the outgoing channel. -/
def registered_fd_sets (incoming outgoing : channel_T) : Finset Nat × Finset Nat :=
  let rw := set_fd_set incoming ∅ ∅
  set_fd_set outgoing rw.1 rw.2

/-- One iteration body of the while loop in forward_all_io (src/ptwrap.c
lines 207-227).  pselect failing with errno ≠ EINTR is fatal (none).  On
EINTR the handler may have set the flag; if the flag is set the geometry
is re-applied, and the iteration performs no channel I/O either way.  On
readiness, pselect reports a subset of the registered descriptors (the
intersection with the environment's choice) and both channels take one
process_buffer step. -/
def loop_step (e : Event) (s : LoopState) : Option LoopState :=
  match e with
  | .selectFail => none
  | .interrupted winch =>
    let s := if winch then receive_sigwinch s else s
    if s.should_set_terminal_size then some (set_terminal_size s) else some s
  | .ready rsel wsel envIn envOut =>
    let rw := registered_fd_sets s.incoming s.outgoing
    let read_fds := rsel ∩ rw.1
    let write_fds := wsel ∩ rw.2
    some { s with
      incoming := process_buffer envIn s.incoming read_fds write_fds
      outgoing := process_buffer envOut s.outgoing read_fds write_fds }

/-- Result of running the forwarding loop on a finite schedule of pselect
outcomes: finished (the loop guard outgoing.state != INACTIVE became
false), fatal (pselect failed with errno ≠ EINTR, the process exits), or
starved (the schedule ran out while the guard still held, i.e. the loop
would keep iterating). -/
inductive RunOutcome where
  | finished (s : LoopState)
  | fatal (s : LoopState)
  | starved (s : LoopState)
deriving DecidableEq, Repr

/-- Whether the loop terminated normally. -/
def RunOutcome.isFinished : RunOutcome → Bool
  | .finished _ => true
  | _ => false

/-- The while loop of forward_all_io (src/ptwrap.c line 207): it runs
while outgoing.state != INACTIVE (the incoming test is commented out in
the source), consuming one pselect outcome per iteration. -/
def forward_loop (events : List Event) (s : LoopState) : RunOutcome :=
  if s.outgoing.state = INACTIVE then
    .finished s
  else
    match events with
    | [] => .starved s
    | e :: rest =>
      match loop_step e s with
      | none => .fatal s
      | some s' => forward_loop rest s'

/-- forward_all_io from src/ptwrap.c lines 190-228: both channels start in
READING, incoming forwards stdin (0) to the pty master and outgoing
forwards the pty master to stdout (1); buffers start empty.  SIGWINCH is
blocked outside pselect, so should_set_terminal_size is false at entry. -/
def forward_all_io_model (master_fd : Nat) (events : List Event) : RunOutcome :=
  forward_loop events
    { incoming :=
        { from_fd := 0, to_fd := master_fd, state := READING,
          buffer := List.replicate BUFSIZ 0,
          buffer_position := 0, buffer_length := 0 }
      outgoing :=
        { from_fd := master_fd, to_fd := 1, state := READING,
          buffer := List.replicate BUFSIZ 0,
          buffer_position := 0, buffer_length := 0 }
      should_set_terminal_size := false
      syncCount := 0 }

/-- The outcome waitpid reports for the child, abstracting the platform
status word: WIFEXITED with an exit code, WIFSIGNALED with a signal
number, or neither (e.g. a stop report). -/
inductive WaitOutcome where
  | exited (code : Nat)
  | signaled (sig : Nat)
  | other
deriving DecidableEq, Repr

/-- The status translation of await_child, src/ptwrap.c lines 235-239:
the child's exit code on normal exit, the terminating signal number OR
0x80 on signal death, EXIT_FAILURE otherwise.  (The waitpid failure path,
line 232-234, exits the process and is modelled in parent_run.) -/
def await_child (w : WaitOutcome) : Nat :=
  match w with
  | .exited code => code
  | .signaled sig => Nat.lor sig 0x80
  | .other => EXIT_FAILURE

/-- The terminal attributes touched by src/ptwrap.c: the three flag words
it masks and the two control characters it sets (struct termios fields
c_iflag, c_oflag, c_lflag, c_cc[VMIN], c_cc[VTIME]). -/
structure termios where
  c_iflag : Nat
  c_oflag : Nat
  c_lflag : Nat
  c_cc_VMIN : Nat
  c_cc_VTIME : Nat
deriving DecidableEq, Repr

/-- Clearing the bits of mask in a 32-bit flag word: x AND NOT mask. -/
def clearBits (x mask : Nat) : Nat :=
  Nat.land x (Nat.xor (2 ^ 32 - 1) mask)

def IGNBRK : Nat := 0o1
def BRKINT : Nat := 0o2
def PARMRK : Nat := 0o10
def INLCR : Nat := 0o100
def IGNCR : Nat := 0o200
def ICRNL : Nat := 0o400
def IXON : Nat := 0o2000
def IXOFF : Nat := 0o10000
def OPOST : Nat := 0o1
def ISIG : Nat := 0o1
def ICANON : Nat := 0o2
def ECHO : Nat := 0o10
def IEXTEN : Nat := 0o100000

/-- The raw-mode transformation applied by disable_canonical_io
(src/ptwrap.c lines 123-129) to the saved attributes: clear the input
conversions and flow control, output post-processing, and echo, canonical
mode, extended input processing and signal generation; set VMIN to 1 and
VTIME to 0.  Flag constants are the glibc values. -/
def make_raw (t : termios) : termios :=
  { c_iflag := clearBits t.c_iflag
      (Nat.lor BRKINT (Nat.lor ICRNL (Nat.lor IGNBRK (Nat.lor IGNCR
        (Nat.lor INLCR (Nat.lor IXON (Nat.lor IXOFF PARMRK)))))))
    c_oflag := clearBits t.c_oflag OPOST
    c_lflag := clearBits t.c_lflag (Nat.lor ECHO (Nat.lor ICANON (Nat.lor IEXTEN ISIG)))
    c_cc_VMIN := 1
    c_cc_VTIME := 0 }

/-- The operating-system responses consumed by the parent branch of main
(src/ptwrap.c lines 306-313): whether tcgetattr on stdin succeeds (the
local stream is a terminal), whether the tcsetattr switching to raw mode
succeeds, the schedule of pselect outcomes for the forwarding loop, and
the waitpid result (none means waitpid failed). -/
structure ParentEnv where
  tcgetattrOK : Bool
  tcsetattrRawOK : Bool
  events : List Event
  waitResult : Option WaitOutcome

/-- Observable outcome of the parent branch: the terminal attributes when
the process exits, how many times enable_canonical_io ran, and the exit
status (none when the process dies through errno_exit inside the loop or
the wait, or when the event schedule was exhausted). -/
structure ParentResult where
  term : termios
  restoreCount : Nat
  exitStatus : Option Nat
deriving DecidableEq, Repr

/-- disable_canonical_io from src/ptwrap.c lines 119-131, acting on the
terminal attributes term0 of stdin: if tcgetattr fails it returns false
and changes nothing; otherwise it saves term0 in original_termios and
returns whether tcsetattr installed the raw attributes (on tcsetattr
failure the terminal is unchanged).  Result: (return value, new terminal
attributes, saved original_termios). -/
def disable_canonical_mode (env : ParentEnv) (term0 : termios) :
    Bool × termios × termios :=
  if env.tcgetattrOK then
    if env.tcsetattrRawOK then (true, make_raw term0, term0)
    else (false, term0, term0)
  else
    (false, term0, term0)

/-- The parent branch of main, src/ptwrap.c lines 306-313: switch to raw
mode, run forward_all_io, await the child, and restore the saved
attributes (enable_canonical_io, lines 133-137) only when
disable_canonical_io had returned true.  A fatal pselect error or a
waitpid failure calls errno_exit before any restoration. -/
def parent_run (env : ParentEnv) (master_fd : Nat) (term0 : termios) :
    ParentResult :=
  let d := disable_canonical_mode env term0
  let noncanon := d.1
  let term1 := d.2.1
  let original_termios := d.2.2
  match forward_all_io_model master_fd env.events with
  | .fatal _ => { term := term1, restoreCount := 0, exitStatus := none }
  | .starved _ => { term := term1, restoreCount := 0, exitStatus := none }
  | .finished _ =>
    match env.waitResult with
    | none => { term := term1, restoreCount := 0, exitStatus := none }
    | some w =>
      let exit_status := await_child w
      if noncanon then
        { term := original_termios, restoreCount := 1,
          exitStatus := some exit_status }
      else
        { term := term1, restoreCount := 0, exitStatus := some exit_status }

/-- Outcome of the argument handling at the top of main (src/ptwrap.c
lines 282-300), before any pseudo-terminal work: exit(EXIT_FAILURE) when
argc ≤ 0; error_exit("operand missing") when no operand remains after an
optional leading "--"; otherwise proceed to pty allocation with the
remaining operands as the command. -/
inductive StartupOutcome where
  | emptyArgv
  | usageError
  | proceed (command : List String)
deriving DecidableEq, Repr

/-- The startup of main, src/ptwrap.c lines 282-300: argv is the full
argument vector including the program name.  optind starts at 1, a single
leading "--" is skipped, and an empty remainder is the usage error; the
pseudo-terminal master is allocated only on the proceed outcome. -/
def main_startup (argv : List String) : StartupOutcome :=
  match argv with
  | [] => .emptyArgv
  | _ :: rest =>
    let operands := if rest.head? = some "--" then rest.tail else rest
    if operands = [] then .usageError
    else .proceed operands

/-- Whether a startup outcome reaches prepare_master_pseudo_terminal
(src/ptwrap.c line 300): only proceed does. -/
def StartupOutcome.allocatesPty : StartupOutcome → Bool
  | .proceed _ => true
  | _ => false

/-- The process exit status produced directly by the startup phase: both
the argc ≤ 0 exit and error_exit use EXIT_FAILURE; proceed continues. -/
def StartupOutcome.exitStatus : StartupOutcome → Option Nat
  | .emptyArgv => some EXIT_FAILURE
  | .usageError => some EXIT_FAILURE
  | .proceed _ => none

/-! The claim theorems follow, one per specification claim. -/

/-- C1: for every child wait outcome, the program's exit status is the
child's own exit code on normal exit, the terminating signal number OR'd
with 0x80 on signal termination, and the generic EXIT_FAILURE for any
other wait outcome (src/ptwrap.c lines 230-240). -/
theorem C1_await_child_translation :
    (∀ code, await_child (.exited code) = code) ∧
    (∀ sig, await_child (.signaled sig) = Nat.lor sig 0x80) ∧
    await_child .other = EXIT_FAILURE :=
  ⟨fun _ => rfl, fun _ => rfl, rfl⟩

/-- C2: one process_buffer step satisfies the transition table.  In
READING with the source ready, a positive read goes to WRITING with the
valid length set to the bytes read and the offset reset to 0, and a read
returning 0 or an error goes to INACTIVE.  In WRITING with the
destination ready, a write error, and a write that leaves the buffer
undrained, keep the channel in WRITING, while a write that drains the
buffer returns it to READING.  An INACTIVE channel never changes. -/
theorem C2_process_buffer_transitions (env : IOEnv) (ch : channel_T)
    (read_fds write_fds : Finset Nat) :
    (ch.state = READING → ch.from_fd ∈ read_fds → 0 < env.readRes →
      (process_buffer env ch read_fds write_fds).state = WRITING ∧
      (process_buffer env ch read_fds write_fds).buffer_length = env.readRes.toNat ∧
      (process_buffer env ch read_fds write_fds).buffer_position = 0) ∧
    (ch.state = READING → ch.from_fd ∈ read_fds → env.readRes ≤ 0 →
      (process_buffer env ch read_fds write_fds).state = INACTIVE) ∧
    (ch.state = WRITING → ch.to_fd ∈ write_fds →
      (env.writeRes < 0 ∨ (0 ≤ env.writeRes ∧
        ch.buffer_position + env.writeRes.toNat ≠ ch.buffer_length)) →
      (process_buffer env ch read_fds write_fds).state = WRITING) ∧
    (ch.state = WRITING → ch.to_fd ∈ write_fds → 0 ≤ env.writeRes →
      ch.buffer_position + env.writeRes.toNat = ch.buffer_length →
      (process_buffer env ch read_fds write_fds).state = READING) ∧
    (ch.state = INACTIVE → process_buffer env ch read_fds write_fds = ch) := by
  refine ⟨?_, ?_, ?_, ?_, ?_⟩
  · intro hs hm hr
    simp [process_buffer, hs, hm, not_le.mpr hr]
  · intro hs hm hr
    simp [process_buffer, hs, hm, hr]
  · intro hs hm hw
    rcases hw with hw | ⟨hw, hne⟩
    · simp [process_buffer, hs, hm, hw]
    · simp [process_buffer, hs, hm, not_lt.mpr hw, hne]
  · intro hs hm hw hdrained
    simp [process_buffer, hs, hm, not_lt.mpr hw, hdrained]
  · intro hs
    simp [process_buffer, hs]

/-- Witness for C2: a READING channel on descriptor 4, ready with a
3-byte read, moves to WRITING with length 3 and offset 0. -/
theorem C2_witness :
    (process_buffer ⟨3, [9, 9, 9], 0⟩ ⟨4, 5, READING, [0, 0, 0, 0], 2, 2⟩
        {4} ∅).state = WRITING ∧
    (process_buffer ⟨3, [9, 9, 9], 0⟩ ⟨4, 5, READING, [0, 0, 0, 0], 2, 2⟩
        {4} ∅).buffer_length = (3 : Int).toNat ∧
    (process_buffer ⟨3, [9, 9, 9], 0⟩ ⟨4, 5, READING, [0, 0, 0, 0], 2, 2⟩
        {4} ∅).buffer_position = 0 :=
  (C2_process_buffer_transitions ⟨3, [9, 9, 9], 0⟩ ⟨4, 5, READING, [0, 0, 0, 0], 2, 2⟩
      {4} ∅).1 rfl (by decide) (by decide)

/-- C10: a failed write (negative result) on a ready WRITING channel
leaves the whole channel record unchanged: state, buffer, offset and
length, so the same bytes are retried at the next readiness. -/
theorem C10_write_error_frame (env : IOEnv) (ch : channel_T)
    (read_fds write_fds : Finset Nat)
    (hs : ch.state = WRITING) (hm : ch.to_fd ∈ write_fds)
    (hw : env.writeRes < 0) :
    process_buffer env ch read_fds write_fds = ch := by
  simp [process_buffer, hs, hm, hw]

/-- Witness for C10: a concrete WRITING channel with a failed write is
returned untouched. -/
theorem C10_witness :
    process_buffer ⟨0, [], -1⟩ ⟨4, 5, WRITING, [7, 8], 1, 2⟩ ∅ {5} =
      ⟨4, 5, WRITING, [7, 8], 1, 2⟩ :=
  C10_write_error_frame ⟨0, [], -1⟩ ⟨4, 5, WRITING, [7, 8], 1, 2⟩ ∅ {5}
    rfl (by decide) (by decide)

/-- C5: set_fd_set registers exactly one readiness interest for a
non-INACTIVE channel (the source in the read set for READING, the
destination in the write set for WRITING) and none for INACTIVE; and the
sets built at the top of each loop iteration contain exactly the
descriptors so registered by the two channels. -/
theorem C5_fd_set_registration (ch : channel_T) (r w : Finset Nat)
    (incoming outgoing : channel_T) (fd : Nat) :
    (ch.state = INACTIVE → set_fd_set ch r w = (r, w)) ∧
    (ch.state = READING → set_fd_set ch r w = (insert ch.from_fd r, w)) ∧
    (ch.state = WRITING → set_fd_set ch r w = (r, insert ch.to_fd w)) ∧
    (ch.state ≠ INACTIVE →
      (set_fd_set ch ∅ ∅).1.card + (set_fd_set ch ∅ ∅).2.card = 1) ∧
    (ch.state = INACTIVE →
      (set_fd_set ch ∅ ∅).1.card + (set_fd_set ch ∅ ∅).2.card = 0) ∧
    (fd ∈ (registered_fd_sets incoming outgoing).1 ↔
      ((incoming.state = READING ∧ fd = incoming.from_fd) ∨
       (outgoing.state = READING ∧ fd = outgoing.from_fd))) ∧
    (fd ∈ (registered_fd_sets incoming outgoing).2 ↔
      ((incoming.state = WRITING ∧ fd = incoming.to_fd) ∨
       (outgoing.state = WRITING ∧ fd = outgoing.to_fd))) := by
  refine ⟨?_, ?_, ?_, ?_, ?_, ?_, ?_⟩
  · intro hs; simp [set_fd_set, hs]
  · intro hs; simp [set_fd_set, hs]
  · intro hs; simp [set_fd_set, hs]
  · intro hs
    cases h : ch.state <;> simp [set_fd_set, h] <;> exact absurd h hs
  · intro hs; simp [set_fd_set, hs]
  · cases hi : incoming.state <;> cases ho : outgoing.state <;>
      simp [registered_fd_sets, set_fd_set, hi, ho, Finset.mem_insert] <;> tauto
  · cases hi : incoming.state <;> cases ho : outgoing.state <;>
      simp [registered_fd_sets, set_fd_set, hi, ho, Finset.mem_insert] <;> tauto

/-- Witness for C5: a READING channel registers exactly its source in the
read set, and the interest count is 1. -/
theorem C5_witness :
    set_fd_set ⟨4, 5, READING, [], 0, 0⟩ ∅ ∅ = (insert 4 ∅, ∅) ∧
    (set_fd_set ⟨4, 5, READING, [], 0, 0⟩ ∅ ∅).1.card +
      (set_fd_set ⟨4, 5, READING, [], 0, 0⟩ ∅ ∅).2.card = 1 :=
  ⟨(C5_fd_set_registration ⟨4, 5, READING, [], 0, 0⟩ ∅ ∅
      ⟨4, 5, READING, [], 0, 0⟩ ⟨4, 5, READING, [], 0, 0⟩ 0).2.1 rfl,
   (C5_fd_set_registration ⟨4, 5, READING, [], 0, 0⟩ ∅ ∅
      ⟨4, 5, READING, [], 0, 0⟩ ⟨4, 5, READING, [], 0, 0⟩ 0).2.2.2.1 (by decide)⟩

/-- C9: with no operand after the optional leading end-of-options marker,
main reports the usage error, exits with the non-zero EXIT_FAILURE, and
never reaches pseudo-terminal allocation. -/
theorem C9_no_operand_usage_error (name : String) (rest : List String)
    (h : rest = [] ∨ rest = ["--"]) :
    main_startup (name :: rest) = .usageError ∧
    (main_startup (name :: rest)).allocatesPty = false ∧
    (main_startup (name :: rest)).exitStatus = some EXIT_FAILURE ∧
    EXIT_FAILURE ≠ 0 := by
  rcases h with h | h <;> subst h <;>
    exact ⟨rfl, rfl, rfl, by decide⟩

/-- Witness for C9: invoking as "ptwrap --" with no command is the usage
error and allocates no pty. -/
theorem C9_witness :
    main_startup ["ptwrap", "--"] = .usageError ∧
    (main_startup ["ptwrap", "--"]).allocatesPty = false ∧
    (main_startup ["ptwrap", "--"]).exitStatus = some EXIT_FAILURE ∧
    EXIT_FAILURE ≠ 0 :=
  C9_no_operand_usage_error "ptwrap" ["--"] (Or.inr rfl)

/-- C7: an iteration whose wait is interrupted by a signal performs no
channel I/O: with the pending-resize flag set (by the handler or from
before) the flag is cleared and the geometry re-applied once, otherwise
the state is untouched; and the SIGWINCH handler's only action is setting
the flag.  Channel steps happen only on ready iterations. -/
theorem C7_interrupted_iteration_no_io (s : LoopState) (winch : Bool) :
    ((s.should_set_terminal_size || winch) = true →
      loop_step (.interrupted winch) s =
        some { s with should_set_terminal_size := false,
                      syncCount := s.syncCount + 1 }) ∧
    ((s.should_set_terminal_size || winch) = false →
      loop_step (.interrupted winch) s = some s) ∧
    (∀ s', loop_step (.interrupted winch) s = some s' →
      s'.incoming = s.incoming ∧ s'.outgoing = s.outgoing) ∧
    ((receive_sigwinch s).incoming = s.incoming ∧
     (receive_sigwinch s).outgoing = s.outgoing ∧
     (receive_sigwinch s).syncCount = s.syncCount ∧
     (receive_sigwinch s).should_set_terminal_size = true) := by
  refine ⟨?_, ?_, ?_, rfl, rfl, rfl, rfl⟩
  · intro hf
    cases hw : winch <;> rw [hw] at hf <;>
      simp_all [loop_step, receive_sigwinch, set_terminal_size]
  · intro hf
    cases hw : winch <;> rw [hw] at hf <;>
      simp_all [loop_step, receive_sigwinch, set_terminal_size]
  · intro s' h
    cases hw : winch <;> rw [hw] at h <;>
      by_cases hf : s.should_set_terminal_size <;>
        simp_all [loop_step, receive_sigwinch, set_terminal_size] <;>
          simp [← h]

/-- Witness for C7: an interrupted wait with the handler having run
clears the flag, bumps the sync count and leaves the channels alone. -/
theorem C7_witness :
    loop_step (.interrupted true)
      { incoming := ⟨0, 5, READING, [], 0, 0⟩,
        outgoing := ⟨5, 1, READING, [], 0, 0⟩,
        should_set_terminal_size := false, syncCount := 0 } =
      some { incoming := ⟨0, 5, READING, [], 0, 0⟩,
             outgoing := ⟨5, 1, READING, [], 0, 0⟩,
             should_set_terminal_size := false, syncCount := 1 } :=
  (C7_interrupted_iteration_no_io
      { incoming := ⟨0, 5, READING, [], 0, 0⟩,
        outgoing := ⟨5, 1, READING, [], 0, 0⟩,
        should_set_terminal_size := false, syncCount := 0 } true).1 (by decide)

/-- Helper: whenever the loop returns normally, the outgoing channel of
the final state is INACTIVE. -/
theorem forward_loop_finished_inactive (events : List Event) :
    ∀ s s', forward_loop events s = .finished s' →
      s'.outgoing.state = INACTIVE := by
  induction events with
  | nil =>
    intro s s' h
    rw [forward_loop.eq_def] at h
    by_cases hs : s.outgoing.state = INACTIVE
    · rw [if_pos hs] at h
      cases h
      exact hs
    · rw [if_neg hs] at h
      cases h
  | cons e rest ih =>
    intro s s' h
    rw [forward_loop.eq_def] at h
    by_cases hs : s.outgoing.state = INACTIVE
    · rw [if_pos hs] at h
      cases h
      exact hs
    · rw [if_neg hs] at h
      cases hstep : loop_step e s with
      | none => simp only [hstep] at h; cases h
      | some s2 => simp only [hstep] at h; exact ih s2 s' h

/-- C3: the forwarding loop is keyed to the outgoing channel only.  It
returns immediately (with the state unchanged) as soon as the outgoing
channel is INACTIVE, whatever the incoming channel's state; every normal
return has the outgoing channel INACTIVE; and while the outgoing channel
is not INACTIVE the loop demands another pselect outcome, again whatever
the incoming channel's state. -/
theorem C3_termination_outbound_only (events : List Event) (s : LoopState) :
    (s.outgoing.state = INACTIVE → forward_loop events s = .finished s) ∧
    (∀ s', forward_loop events s = .finished s' →
      s'.outgoing.state = INACTIVE) ∧
    (s.outgoing.state ≠ INACTIVE → forward_loop [] s = .starved s) := by
  refine ⟨fun h => ?_, fun s' h => forward_loop_finished_inactive events s s' h,
    fun h => ?_⟩
  · rw [forward_loop.eq_def, if_pos h]
  · rw [forward_loop.eq_def, if_neg h]

/-- Witness for C3: with the outgoing channel INACTIVE and the incoming
channel still READING, the loop finishes at once. -/
theorem C3_witness :
    forward_loop []
      { incoming := ⟨0, 5, READING, [], 0, 0⟩,
        outgoing := ⟨5, 1, INACTIVE, [], 0, 0⟩,
        should_set_terminal_size := false, syncCount := 0 } =
      .finished
        { incoming := ⟨0, 5, READING, [], 0, 0⟩,
          outgoing := ⟨5, 1, INACTIVE, [], 0, 0⟩,
          should_set_terminal_size := false, syncCount := 0 } :=
  (C3_termination_outbound_only []
      { incoming := ⟨0, 5, READING, [], 0, 0⟩,
        outgoing := ⟨5, 1, INACTIVE, [], 0, 0⟩,
        should_set_terminal_size := false, syncCount := 0 }).1 rfl

/-- The write(2) contract assumed of the operating system for one step: a
nonnegative write result never exceeds the number of bytes the channel
asked to write (buffer_length - buffer_position). -/
def writeContract (env : IOEnv) (ch : channel_T) : Prop :=
  ch.state = WRITING → 0 ≤ env.writeRes →
    env.writeRes.toNat ≤ ch.buffer_length - ch.buffer_position

/-- Channel states reachable by process_buffer steps whose write results
respect the write(2) contract. -/
inductive ReachCh : channel_T → channel_T → Prop where
  | refl (ch : channel_T) : ReachCh ch ch
  | step {a b : channel_T} (env : IOEnv) (read_fds write_fds : Finset Nat)
      (h : ReachCh a b) (hc : writeContract env b) :
      ReachCh a (process_buffer env b read_fds write_fds)

/-- The assertion of src/ptwrap.c line 177: in WRITING the offset is
strictly below the valid length. -/
def chanWriteInv (ch : channel_T) : Prop :=
  ch.state = WRITING → ch.buffer_position < ch.buffer_length

/-- Helper: one process_buffer step preserves the WRITING offset
invariant, given the write(2) contract for the step. -/
theorem process_buffer_preserves_inv (env : IOEnv) (ch : channel_T)
    (read_fds write_fds : Finset Nat) (hc : writeContract env ch)
    (h : chanWriteInv ch) :
    chanWriteInv (process_buffer env ch read_fds write_fds) := by
  cases hs : ch.state with
  | INACTIVE =>
    intro hw
    simp [process_buffer, hs] at hw
  | READING =>
    by_cases hm : ch.from_fd ∈ read_fds
    · by_cases hr : env.readRes ≤ 0
      · intro hw
        simp [process_buffer, hs, hm, hr] at hw
      · intro _
        simp [process_buffer, hs, hm, hr]
        omega
    · intro hw
      simp [process_buffer, hs, hm] at hw
  | WRITING =>
    have hlt := h hs
    have hcontract := hc hs
    by_cases hm : ch.to_fd ∈ write_fds
    · by_cases hneg : env.writeRes < 0
      · simpa [process_buffer, hs, hm, hneg] using h
      · have hbound := hcontract (not_lt.mp hneg)
        by_cases hfull : ch.buffer_position + env.writeRes.toNat = ch.buffer_length
        · intro hw
          simp [process_buffer, hs, hm, hneg, hfull] at hw
        · intro _
          simp [process_buffer, hs, hm, hneg, hfull]
          omega
    · simpa [process_buffer, hs, hm] using h

/-- Helper: an INACTIVE channel is returned unchanged by
process_buffer. -/
theorem process_buffer_inactive (env : IOEnv) (ch : channel_T)
    (read_fds write_fds : Finset Nat) (hs : ch.state = INACTIVE) :
    process_buffer env ch read_fds write_fds = ch := by
  simp [process_buffer, hs]

/-- Helper: the WRITING offset invariant holds in every channel state
reachable from a READING state. -/
theorem reach_inv (init ch : channel_T) (hinit : init.state = READING)
    (hr : ReachCh init ch) : chanWriteInv ch := by
  induction hr with
  | refl =>
    intro hw
    rw [hinit] at hw
    cases hw
  | step env read_fds write_fds _ hc ih =>
    exact process_buffer_preserves_inv env _ read_fds write_fds hc ih

/-- Helper: INACTIVE is absorbing along reachability. -/
theorem reach_inactive_absorbing (a b : channel_T) (hr : ReachCh a b)
    (ha : a.state = INACTIVE) : b.state = INACTIVE := by
  induction hr with
  | refl => exact ha
  | step env read_fds write_fds _ hc ih =>
    rw [process_buffer_inactive env _ read_fds write_fds ih]
    exact ih

/-- C6: in every channel state reachable (under the write(2) contract)
from an initial READING state -- as both loop channels start -- a WRITING
state has offset strictly below the valid length, so the assertion at
src/ptwrap.c line 177 never fails; and a channel that has become INACTIVE
stays INACTIVE under every further step. -/
theorem C6_writing_invariant_inactive_terminal :
    (∀ init ch, init.state = READING → ReachCh init ch →
      ch.state = WRITING → ch.buffer_position < ch.buffer_length) ∧
    (∀ a b, ReachCh a b → a.state = INACTIVE → b.state = INACTIVE) :=
  ⟨fun init ch hinit hr => reach_inv init ch hinit hr,
   fun a b hr ha => reach_inactive_absorbing a b hr ha⟩

/-- Witness for C6: from a concrete READING channel, one ready read of one
byte reaches a WRITING state whose offset 0 is below its length 1. -/
theorem C6_witness :
    (process_buffer ⟨1, [9], 0⟩ ⟨4, 5, READING, [0, 0], 0, 0⟩ {4} ∅).buffer_position <
      (process_buffer ⟨1, [9], 0⟩ ⟨4, 5, READING, [0, 0], 0, 0⟩ {4} ∅).buffer_length :=
  C6_writing_invariant_inactive_terminal.1 ⟨4, 5, READING, [0, 0], 0, 0⟩
    (process_buffer ⟨1, [9], 0⟩ ⟨4, 5, READING, [0, 0], 0, 0⟩ {4} ∅) rfl
    (ReachCh.step ⟨1, [9], 0⟩ {4} ∅ (ReachCh.refl _)
      (fun h => state_T.noConfusion h))
    (by decide)

/-- C8 counterexample: the claim that signal-termination statuses are
disjoint from the whole normal-exit range 0-255 is false: signal 9
encodes to 9 OR 0x80 = 137, which coincides with the status of a normal
exit with code 137. -/
theorem C8_counterexample :
    await_child (.signaled 9) = 137 ∧ await_child (.exited 137) = 137 ∧
    await_child (.signaled 9) = await_child (.exited 137) := by
  decide

/-- C8 (amended): for every terminating signal number the encoded status
has the 0x80 bit set, so it is at least 128 and disjoint from the normal
exit codes 0-127 (not from all of 0-255: codes 128-255 can coincide, as
the counterexample shows). -/
theorem C8_signal_status_high_bit (sig code : Nat) (hcode : code ≤ 127) :
    128 ≤ await_child (.signaled sig) ∧
    await_child (.signaled sig) ≠ await_child (.exited code) := by
  have hbit : (Nat.lor sig 128).testBit 7 = true := by
    rw [show Nat.lor sig 128 = sig ||| 128 from rfl, Nat.testBit_or]
    simp only [Bool.or_eq_true]
    exact Or.inr (by decide)
  have hge : 128 ≤ Nat.lor sig 128 := by
    have := Nat.testBit_implies_ge hbit
    simpa using this
  have h1 : await_child (.signaled sig) = Nat.lor sig 128 := rfl
  have h2 : await_child (.exited code) = code := rfl
  constructor
  · rw [h1]; exact hge
  · rw [h1, h2]; omega

/-- Witness for C8 (amended): the status for signal 9 is at least 128 and
differs from the status of a normal exit with code 0. -/
theorem C8_witness :
    128 ≤ await_child (.signaled 9) ∧
    await_child (.signaled 9) ≠ await_child (.exited 0) :=
  C8_signal_status_high_bit 9 0 (by decide)

/-- Sample terminal attributes for concrete runs. -/
def sampleTermios : termios := ⟨2, 1, 10, 0, 0⟩

/-- A one-event pselect schedule on master descriptor 5 that finishes the
forwarding loop at once: the master is ready for reading and the read
reports end of file, so the outgoing channel goes INACTIVE. -/
def c4FinishEvents : List Event :=
  [Event.ready {5} ∅ ⟨0, [], 0⟩ ⟨0, [], 0⟩]

/-- A parent environment in which stdin is a terminal (tcgetattr
succeeds) but the tcsetattr installing raw mode fails, the loop finishes,
and the child is reaped normally. -/
def c4EnvNoRaw : ParentEnv :=
  { tcgetattrOK := true, tcsetattrRawOK := false,
    events := c4FinishEvents, waitResult := some (.exited 0) }

/-- The same parent environment with the raw-mode switch succeeding. -/
def c4EnvRaw : ParentEnv :=
  { tcgetattrOK := true, tcsetattrRawOK := true,
    events := c4FinishEvents, waitResult := some (.exited 0) }

/-- C4 counterexample: a completed run in which the attribute capture
(tcgetattr) succeeds, the loop finishes and the wait succeeds, yet the
restoration runs zero times, not exactly once: the raw-mode tcsetattr
failed, so disable_canonical_io returned false and main skips
enable_canonical_io (src/ptwrap.c lines 308, 311-312).  The attributes
still equal the originals. -/
theorem C4_counterexample :
    c4EnvNoRaw.tcgetattrOK = true ∧
    (forward_all_io_model 5 c4EnvNoRaw.events).isFinished = true ∧
    c4EnvNoRaw.waitResult = some (.exited 0) ∧
    (parent_run c4EnvNoRaw 5 sampleTermios).restoreCount = 0 ∧
    (parent_run c4EnvNoRaw 5 sampleTermios).term = sampleTermios := by
  refine ⟨rfl, ?_, rfl, ?_, ?_⟩ <;> rfl

/-- C4 (amended): in every completed run where the capture succeeds, the
loop finishes and the wait succeeds, the local terminal attributes at
exit equal the attributes at start, the exit status is the translated
child status, and the restoration runs exactly once when the raw-mode
switch had succeeded and zero times when it had failed (in which case the
terminal was never altered). -/
theorem C4_restore_round_trip (env : ParentEnv) (master_fd : Nat)
    (t0 : termios) (hget : env.tcgetattrOK = true)
    (hfin : (forward_all_io_model master_fd env.events).isFinished = true)
    (w : WaitOutcome) (hw : env.waitResult = some w) :
    (parent_run env master_fd t0).term = t0 ∧
    (parent_run env master_fd t0).restoreCount =
      (if env.tcsetattrRawOK then 1 else 0) ∧
    (parent_run env master_fd t0).exitStatus = some (await_child w) := by
  cases hout : forward_all_io_model master_fd env.events with
  | fatal s => rw [hout] at hfin; cases hfin
  | starved s => rw [hout] at hfin; cases hfin
  | finished s =>
    cases hraw : env.tcsetattrRawOK <;>
      simp [parent_run, disable_canonical_mode, hget, hraw, hout, hw]

/-- Witness for C4 (amended): with the raw switch succeeding, the run
restores exactly once and the attributes round-trip. -/
theorem C4_witness :
    (parent_run c4EnvRaw 5 sampleTermios).term = sampleTermios ∧
    (parent_run c4EnvRaw 5 sampleTermios).restoreCount =
      (if c4EnvRaw.tcsetattrRawOK then 1 else 0) ∧
    (parent_run c4EnvRaw 5 sampleTermios).exitStatus =
      some (await_child (.exited 0)) :=
  C4_restore_round_trip c4EnvRaw 5 sampleTermios rfl rfl (.exited 0) rfl

end Ptwrap
